import Mathlib

/-!
Shallow embedding of the acknowledgement/retry coordination subsystem of
`faststream` (`faststream/broker/push_back_watcher.py`): the retry-policy
watchers (`EndlessWatcher`, `OneTryWatcher`, `CounterWatcher`) and the
per-message delivery scope (`WatcherContext`), together with proofs about
their behaviour.

`CounterWatcher.memory` is a Python `collections.Counter`, i.e. a `dict`
subclass mapping strings to ints.  We embed it as an insertion-ordered
association list with unique keys (the states reachable from an empty
`Counter` keep keys unique, as a Python `dict` does), and embed the exact
`Counter` operations the source uses:
  * subscript read `c[k]`: `Counter.__missing__` returns `0` for an absent
    key WITHOUT inserting it (unlike `defaultdict`);
  * subscript write `c[k] = v`: plain `dict.__setitem__` — overwrite the
    existing entry in place, or append a new one;
  * `c += Counter()`: `Counter.__iadd__` with an empty right operand adds
    nothing and then runs `Counter._keep_positive`, which deletes every
    entry whose count is not strictly positive.

`WatcherContext.__aexit__` performs `await`ed message acknowledgement calls
and watcher-policy calls and finally returns a boolean telling Python
whether to suppress the in-flight exception.  We embed it as a pure
function from the watcher state and the exception present at scope exit to
`(suppress, event trace, final watcher state)`, where the event trace
records, in program order, each message-level terminal call (`ack`, `nack`,
`reject`, with the `extra_ack_args` it forwards) and each policy call
(`add`, `is_max`, `remove`).
-/

namespace Faststream

/-- A Python `Counter[str]` value: insertion-ordered association list from
keys to integer counts. -/
abbrev CounterMap : Type := List (String × Int)

namespace PyCounter

/-- Subscript read `c[k]` on a `dict`: value of the first entry with key `k`;
`Counter.__missing__` yields `0` when the key is absent. -/
def get : CounterMap → String → Int
  | [], _ => 0
  | p :: rest, k => if p.1 = k then p.2 else get rest k

/-- Subscript write `c[k] = v` on a `dict`: overwrite the entry for `k` in
place if present, otherwise append `(k, v)`. -/
def set : CounterMap → String → Int → CounterMap
  | [], k, v => [(k, v)]
  | p :: rest, k, v => if p.1 = k then (k, v) :: rest else p :: set rest k v

/-- Subscript read on a `Counter`, with its state threaded explicitly:
`Counter.__getitem__` goes through `__missing__` for an absent key, which
returns `0` and does NOT insert an entry, so the map is returned unchanged. -/
def getitem (c : CounterMap) (k : String) : Int × CounterMap :=
  (get c k, c)

/-- `Counter._keep_positive`: delete every entry whose count is not
strictly positive.  Run by `Counter.__iadd__`, hence by `c += Counter()`. -/
def keep_positive (c : CounterMap) : CounterMap :=
  c.filter (fun p => decide (0 < p.2))

/-- The keys currently present in the mapping. -/
def keys (c : CounterMap) : List String :=
  c.map Prod.fst

end PyCounter

/-- `CounterWatcher`: the bounded-counter retry policy.  `max_tries` is the
retry budget; `memory` is the per-message-id attempt counter.  The optional
`logger` of the source only emits error-level log lines and never affects
control flow or state, so it is not represented. -/
structure CounterWatcher where
  max_tries : Int
  memory : CounterMap
deriving DecidableEq

namespace CounterWatcher

/-- `CounterWatcher.__init__`: `memory = Counter()` (empty). -/
def fresh (max_tries : Int) : CounterWatcher :=
  ⟨max_tries, []⟩

/-- `CounterWatcher.add`: `self.memory[message_id] += 1`, i.e. a `Counter`
read (0 when absent) followed by a `dict` write of the incremented value. -/
def add (w : CounterWatcher) (message_id : String) : CounterWatcher :=
  { w with memory := PyCounter.set w.memory message_id (PyCounter.get w.memory message_id + 1) }

/-- `CounterWatcher.is_max`: `self.memory[message_id] > self.max_tries`.
The `Counter` read is threaded through `PyCounter.getitem` so that the
(absence of a) state change is part of the embedding; the logging branch
only writes log lines and is omitted. -/
def is_max (w : CounterWatcher) (message_id : String) : Bool × CounterWatcher :=
  let r := PyCounter.getitem w.memory message_id
  (decide (r.1 > w.max_tries), { w with memory := r.2 })

/-- `CounterWatcher.remove`: `self.memory[message] = 0` followed by
`self.memory += Counter()` (which strips all non-positive entries). -/
def remove (w : CounterWatcher) (message : String) : CounterWatcher :=
  { w with memory := PyCounter.keep_positive (PyCounter.set w.memory message 0) }

/-- `add` iterated `n` times for the same id (no intervening `remove`). -/
def addN (w : CounterWatcher) (message_id : String) : Nat → CounterWatcher
  | 0 => w
  | n + 1 => (addN w message_id n).add message_id

end CounterWatcher

/-- One call of the `CounterWatcher` public interface. -/
inductive WOp where
  | add (message_id : String)
  | isMax (message_id : String)
  | remove (message_id : String)
deriving DecidableEq

/-- Run one interface call against a `CounterWatcher`, keeping the
post-call state (the boolean result of `is_max` is discarded here). -/
def CounterWatcher.runOp (w : CounterWatcher) : WOp → CounterWatcher
  | WOp.add id => w.add id
  | WOp.isMax id => (w.is_max id).2
  | WOp.remove id => w.remove id

/-- Run a sequence of interface calls against a `CounterWatcher`. -/
def CounterWatcher.runOps (w : CounterWatcher) : List WOp → CounterWatcher
  | [] => w
  | op :: ops => (w.runOp op).runOps ops

/-- The closed set of retry-policy variants defined in the source file:
`EndlessWatcher` (`add`/`remove` no-ops, `is_max` always false),
`OneTryWatcher` (`add`/`remove` no-ops, `is_max` always true), and
`CounterWatcher` (bounded counter). -/
inductive Watcher where
  | endless
  | oneTry
  | counter (w : CounterWatcher)
deriving DecidableEq

/-- `BaseWatcher.add` dispatched over the three variants. -/
def Watcher.add : Watcher → String → Watcher
  | Watcher.endless, _ => Watcher.endless
  | Watcher.oneTry, _ => Watcher.oneTry
  | Watcher.counter w, id => Watcher.counter (w.add id)

/-- `BaseWatcher.is_max` dispatched over the three variants, returning the
boolean answer together with the post-call watcher state. -/
def Watcher.is_max : Watcher → String → Bool × Watcher
  | Watcher.endless, _ => (false, Watcher.endless)
  | Watcher.oneTry, _ => (true, Watcher.oneTry)
  | Watcher.counter w, id =>
      let r := w.is_max id
      (r.1, Watcher.counter r.2)

/-- `BaseWatcher.remove` dispatched over the three variants. -/
def Watcher.remove : Watcher → String → Watcher
  | Watcher.endless, _ => Watcher.endless
  | Watcher.oneTry, _ => Watcher.oneTry
  | Watcher.counter w, id => Watcher.counter (w.remove id)

/-- The exception state observed by `WatcherContext.__aexit__`.
Modelled from the spec for the class taxonomy (`faststream/exceptions.py`
is not part of the sources at hand): the spec's §3 outcome-signal taxonomy
gives four distinct signal kinds — `SkipMessage`, and `AckMessage` /
`NackMessage` / `RejectMessage`, the latter three being the
`HandlerException` kinds the `__aexit__` `isinstance` chain groups
together; `otherException` is any exception outside the taxonomy. -/
inductive ExcInfo where
  | noExc
  | skipMessage
  | ackMessage
  | nackMessage
  | rejectMessage
  | otherException
deriving DecidableEq

/-- The `extra_ack_args` keyword mapping forwarded to the terminal call. -/
abbrev Args : Type := List (String × String)

/-- One observable effect of the delivery scope: a message-level terminal
call (with the `extra_ack_args` it forwards) or a watcher-policy call. -/
inductive Event where
  | msgAck (args : Args)
  | msgNack (args : Args)
  | msgReject (args : Args)
  | policyAdd (message_id : String)
  | policyIsMax (message_id : String)
  | policyRemove (message_id : String)
deriving DecidableEq

/-- Whether an event is one of the three message-level terminal actions. -/
def Event.is_terminal : Event → Bool
  | Event.msgAck _ => true
  | Event.msgNack _ => true
  | Event.msgReject _ => true
  | _ => false

/-- The message-level terminal actions in a trace, in order. -/
def terminal_events (es : List Event) : List Event :=
  es.filter Event.is_terminal

namespace WatcherContext

/-- `WatcherContext.__ack`: `await call_or_await(self.message.ack,
**self.extra_ack_args)` then `self.watcher.remove(self.message.message_id)`. -/
def ack_action (args : Args) (w : Watcher) (mid : String) : List Event × Watcher :=
  ([Event.msgAck args, Event.policyRemove mid], w.remove mid)

/-- `WatcherContext.__nack`: `await call_or_await(self.message.nack,
**self.extra_ack_args)`; the watcher is left untouched. -/
def nack_action (args : Args) (w : Watcher) (_mid : String) : List Event × Watcher :=
  ([Event.msgNack args], w)

/-- `WatcherContext.__reject`: `await call_or_await(self.message.reject,
**self.extra_ack_args)` then `self.watcher.remove(self.message.message_id)`. -/
def reject_action (args : Args) (w : Watcher) (mid : String) : List Event × Watcher :=
  ([Event.msgReject args, Event.policyRemove mid], w.remove mid)

/-- `WatcherContext.__aenter__`: `self.watcher.add(self.message.message_id)`. -/
def aenter (w : Watcher) (mid : String) : List Event × Watcher :=
  ([Event.policyAdd mid], w.add mid)

/-- `WatcherContext.__aexit__`, branch for branch:
  * no exception → `__ack`; fall through to `return False`;
  * `isinstance(exc_val, SkipMessage)` → `watcher.remove`; fall through to
    `return False`;
  * `isinstance(exc_val, HandlerException)` → `__ack` for `AckMessage`,
    `is_max`-guarded `__reject`/`__nack` for `NackMessage`, `__reject` for
    `RejectMessage`; `return True`;
  * any other exception → `is_max`-guarded `__reject`/`__nack`;
    `return False`.
Returns `(suppress, trace, final watcher state)`. -/
def aexit (args : Args) (w : Watcher) (mid : String) (exc : ExcInfo) :
    Bool × List Event × Watcher :=
  match exc with
  | ExcInfo.noExc =>
      let r := ack_action args w mid
      (false, r.1, r.2)
  | ExcInfo.skipMessage =>
      (false, [Event.policyRemove mid], w.remove mid)
  | ExcInfo.ackMessage =>
      let r := ack_action args w mid
      (true, r.1, r.2)
  | ExcInfo.nackMessage =>
      let q := w.is_max mid
      if q.1 then
        let r := reject_action args q.2 mid
        (true, Event.policyIsMax mid :: r.1, r.2)
      else
        let r := nack_action args q.2 mid
        (true, Event.policyIsMax mid :: r.1, r.2)
  | ExcInfo.rejectMessage =>
      let r := reject_action args w mid
      (true, r.1, r.2)
  | ExcInfo.otherException =>
      let q := w.is_max mid
      if q.1 then
        let r := reject_action args q.2 mid
        (false, Event.policyIsMax mid :: r.1, r.2)
      else
        let r := nack_action args q.2 mid
        (false, Event.policyIsMax mid :: r.1, r.2)

/-- One full delivery scope: `__aenter__`, the handler finishing with
exception state `exc`, then `__aexit__`. -/
def scope_run (args : Args) (w : Watcher) (mid : String) (exc : ExcInfo) :
    Bool × List Event × Watcher :=
  let e := aenter w mid
  let r := aexit args e.2 mid exc
  (r.1, e.1 ++ r.2.1, r.2.2)

end WatcherContext

/- ------------------------------------------------------------------ -/
/- Helper lemmas                                                      -/
/- ------------------------------------------------------------------ -/

namespace PyCounter

theorem get_set_self (c : CounterMap) (k : String) (v : Int) :
    get (set c k v) k = v := by
  induction c with
  | nil => simp [get, set]
  | cons p rest ih =>
      by_cases h : p.1 = k
      · simp [get, set, h]
      · simp [get, set, h, ih]

theorem get_set_other (c : CounterMap) (k k' : String) (v : Int) (h : k' ≠ k) :
    get (set c k v) k' = get c k' := by
  have h' : k ≠ k' := Ne.symm h
  induction c with
  | nil => simp [get, set, h']
  | cons p rest ih =>
      by_cases hp : p.1 = k
      · subst hp
        simp [get, set, h']
      · simp [get, set, hp, ih]

theorem mem_set (c : CounterMap) (k : String) (v : Int) :
    ∀ p ∈ set c k v, p = (k, v) ∨ p ∈ c := by
  induction c with
  | nil => simp [set]
  | cons a rest ih =>
      by_cases ha : a.1 = k
      · intro p hp
        simp only [set, ha, if_pos rfl] at hp
        rcases List.mem_cons.mp hp with h | h
        · exact Or.inl h
        · exact Or.inr (List.mem_cons_of_mem _ h)
      · intro p hp
        simp only [set, if_neg ha] at hp
        rcases List.mem_cons.mp hp with h | h
        · exact Or.inr (h ▸ List.mem_cons_self _ _)
        · rcases ih p h with h' | h'
          · exact Or.inl h'
          · exact Or.inr (List.mem_cons_of_mem _ h')

theorem mem_set_key_eq (c : CounterMap) (k : String) (v : Int)
    (h : (keys c).Nodup) :
    ∀ p ∈ set c k v, p.1 = k → p = (k, v) := by
  induction c with
  | nil =>
      intro p hp _
      simpa [set] using hp
  | cons a rest ih =>
      have hcons := List.nodup_cons.mp (show (a.1 :: keys rest).Nodup from h)
      intro p hp hpk
      by_cases ha : a.1 = k
      · simp only [set, ha, if_pos rfl] at hp
        rcases List.mem_cons.mp hp with h' | h'
        · exact h'
        · exfalso
          apply hcons.1
          rw [ha, ← hpk]
          exact List.mem_map_of_mem Prod.fst h'
      · simp only [set, if_neg ha] at hp
        rcases List.mem_cons.mp hp with h' | h'
        · exact absurd (h' ▸ hpk) ha
        · exact ih hcons.2 p h' hpk

theorem get_eq_zero_of_not_mem_keys (c : CounterMap) (k : String)
    (h : k ∉ keys c) : get c k = 0 := by
  induction c with
  | nil => simp [get]
  | cons a rest ih =>
      have h1 : a.1 ≠ k := by
        intro he
        exact h (by simp [keys, he])
      have h2 : k ∉ keys rest := by
        intro hm
        exact h (by simp [keys] at hm ⊢; exact Or.inr hm)
      simp [get, h1, ih h2]

theorem not_mem_keys_keep_positive_set_zero (c : CounterMap) (k : String)
    (h : (keys c).Nodup) :
    k ∉ keys (keep_positive (set c k 0)) := by
  intro hmem
  rcases List.mem_map.mp hmem with ⟨p, hp, hpk⟩
  have hp' := List.mem_filter.mp hp
  have hzero : p = (k, 0) := mem_set_key_eq c k 0 h p hp'.1 hpk
  have : (0 : Int) < p.2 := by simpa using hp'.2
  rw [hzero] at this
  exact absurd this (by norm_num)

end PyCounter

namespace CounterWatcher

theorem get_addN (w : CounterWatcher) (id : String) (n : Nat) :
    PyCounter.get (addN w id n).memory id = PyCounter.get w.memory id + n := by
  induction n with
  | zero => simp [addN]
  | succ n ih =>
      simp only [addN, add, PyCounter.get_set_self, ih]
      push_cast
      ring

theorem max_tries_addN (w : CounterWatcher) (id : String) (n : Nat) :
    (addN w id n).max_tries = w.max_tries := by
  induction n with
  | zero => rfl
  | succ n ih => simp [addN, add, ih]

theorem get_nonneg_of_memPositive (c : CounterMap) (k : String)
    (h : ∀ p ∈ c, 0 < p.2) : 0 ≤ PyCounter.get c k := by
  induction c with
  | nil => simp [PyCounter.get]
  | cons a rest ih =>
      by_cases ha : a.1 = k
      · simpa [PyCounter.get, ha] using le_of_lt (h a (List.mem_cons_self _ _))
      · have hr : 0 ≤ PyCounter.get rest k :=
          ih (fun p hp => h p (List.mem_cons_of_mem _ hp))
        simpa [PyCounter.get, ha] using hr

theorem runOp_memPositive (w : CounterWatcher) (op : WOp)
    (h : ∀ p ∈ w.memory, 0 < p.2) : ∀ p ∈ (w.runOp op).memory, 0 < p.2 := by
  cases op with
  | add id =>
      intro p hp
      rcases PyCounter.mem_set w.memory id (PyCounter.get w.memory id + 1) p hp with h' | h'
      · have hge := get_nonneg_of_memPositive w.memory id h
        rw [h']
        show (0 : Int) < PyCounter.get w.memory id + 1
        omega
      · exact h p h'
  | isMax id => exact h
  | remove id =>
      intro p hp
      have := (List.mem_filter.mp hp).2
      simpa using this

theorem runOps_memPositive (w : CounterWatcher) (ops : List WOp)
    (h : ∀ p ∈ w.memory, 0 < p.2) : ∀ p ∈ (w.runOps ops).memory, 0 < p.2 := by
  induction ops generalizing w with
  | nil => exact h
  | cons op ops ih => exact ih (w.runOp op) (runOp_memPositive w op h)

end CounterWatcher

/- ------------------------------------------------------------------ -/
/- Claim theorems                                                     -/
/- ------------------------------------------------------------------ -/

/-- Claim C1: on a freshly created `CounterWatcher` with `max_tries = K`
(`K` a non-negative integer), calling `add` for an id `N` times with no
intervening `remove` and then querying `is_max` for that id returns `true`
iff `N > K`. -/
theorem counterWatcher_addN_is_max (id : String) (K N : Nat) :
    ((CounterWatcher.addN (CounterWatcher.fresh (K : Int)) id N).is_max id).1 = true
      ↔ N > K := by
  simp only [CounterWatcher.is_max, PyCounter.getitem,
    CounterWatcher.get_addN, CounterWatcher.max_tries_addN,
    CounterWatcher.fresh, PyCounter.get, decide_eq_true_eq]
  omega

/-- Claim C9: `CounterWatcher.is_max` leaves the watcher state — in
particular the attempt-count mapping — unchanged, for every id, including
ids never passed to `add` (the `Counter` read returns 0 for an absent key
without inserting an entry). -/
theorem counterWatcher_is_max_frame (w : CounterWatcher) (id : String) :
    (w.is_max id).2 = w := rfl

/-- Claim C4 counterexample: after `add "a"` then `remove "a"` on a fresh
`CounterWatcher`, the mapping does NOT still contain `"a"` as a key — the
`self.memory += Counter()` step of `remove` deletes the zeroed entry, so
the key set does shrink. -/
theorem counterWatcher_remove_deletes_cex :
    "a" ∉ PyCounter.keys
      (((CounterWatcher.fresh 3).add "a").remove "a").memory := by
  decide

/-- Claim C4 as amended: after `CounterWatcher.remove id` (from any state
whose mapping has no duplicate keys, as every `dict`-reachable state has),
the attempt count for `id` reads as zero AND the id's entry is deleted from
the mapping: the key set does not retain the id. -/
theorem counterWatcher_remove_resets_and_deletes (w : CounterWatcher) (id : String)
    (h : (PyCounter.keys w.memory).Nodup) :
    PyCounter.get (w.remove id).memory id = 0 ∧
      id ∉ PyCounter.keys (w.remove id).memory := by
  have hnot : id ∉ PyCounter.keys (PyCounter.keep_positive (PyCounter.set w.memory id 0)) :=
    PyCounter.not_mem_keys_keep_positive_set_zero w.memory id h
  exact ⟨PyCounter.get_eq_zero_of_not_mem_keys _ id hnot, hnot⟩

/-- Witness for the amended C4 at a concrete state. -/
theorem counterWatcher_remove_resets_and_deletes_witness :
    (PyCounter.keys ((CounterWatcher.fresh 3).add "a").memory).Nodup ∧
      (PyCounter.get (((CounterWatcher.fresh 3).add "a").remove "a").memory "a" = 0 ∧
        "a" ∉ PyCounter.keys (((CounterWatcher.fresh 3).add "a").remove "a").memory) :=
  ⟨by decide, counterWatcher_remove_resets_and_deletes ((CounterWatcher.fresh 3).add "a") "a" (by decide)⟩

/-- Claim C10: after any sequence of `add` / `is_max` / `remove` calls on a
fresh `CounterWatcher`, every key present in `memory` has a strictly
positive count: `remove` evicts the id's entry (and any other non-positive
entry) rather than leaving a zero-valued residue. -/
theorem counterWatcher_memory_positive (K : Int) (ops : List WOp) (p : String × Int)
    (h : p ∈ ((CounterWatcher.fresh K).runOps ops).memory) : 0 < p.2 :=
  CounterWatcher.runOps_memPositive (CounterWatcher.fresh K) ops
    (by intro q hq; simp [CounterWatcher.fresh] at hq) p h

/-- Witness for C10 at a concrete state. -/
theorem counterWatcher_memory_positive_witness :
    ("a", (1 : Int)) ∈ ((CounterWatcher.fresh 3).runOps [WOp.add "a"]).memory ∧
      (0 : Int) < ("a", (1 : Int)).2 :=
  ⟨by decide, counterWatcher_memory_positive 3 [WOp.add "a"] ("a", 1) (by decide)⟩

/-- Claim C7: when the handler returns normally, `__aexit__` performs
exactly one ACK — the message's `ack` is invoked once with
`extra_ack_args` and then `policy.remove(message_id)` is called — no nack
or reject is invoked, and the exit returns falsy. -/
theorem watcherContext_normal_exit_ack (args : Args) (w : Watcher) (mid : String) :
    WatcherContext.aexit args w mid ExcInfo.noExc =
      (false, [Event.msgAck args, Event.policyRemove mid], w.remove mid) := rfl

/-- Claim C2: on a non-signal handler exception, `__aexit__` consults
`is_max` and performs REJECT when it is true and NACK otherwise, and the
exception is not suppressed: the exit returns falsy after the terminal
action. -/
theorem watcherContext_other_exception (args : Args) (w : Watcher) (mid : String) :
    WatcherContext.aexit args w mid ExcInfo.otherException =
      if (w.is_max mid).1 then
        (false, [Event.policyIsMax mid, Event.msgReject args, Event.policyRemove mid],
          ((w.is_max mid).2).remove mid)
      else
        (false, [Event.policyIsMax mid, Event.msgNack args], (w.is_max mid).2) := by
  cases hq : (w.is_max mid).1 <;>
    simp [WatcherContext.aexit, WatcherContext.reject_action, WatcherContext.nack_action, hq]

/-- Claim C3 counterexample: on a `SkipMessage` exit, `__aexit__` returns
`False` — the Skip signal is NOT suppressed, contrary to the claim. -/
theorem watcherContext_skip_not_suppressed_cex :
    (WatcherContext.aexit [] (Watcher.counter (CounterWatcher.fresh 3)) "m"
        ExcInfo.skipMessage).1 = false := rfl

/-- Claim C3 as amended: on a `SkipMessage` exit no ack, nack or reject is
invoked and `policy.remove(message_id)` is the only policy call made, but
the Skip signal is NOT suppressed: `__aexit__` falls through to
`return False`, so the signal propagates out of the scope. -/
theorem watcherContext_skip_exit (args : Args) (w : Watcher) (mid : String) :
    WatcherContext.aexit args w mid ExcInfo.skipMessage =
      (false, [Event.policyRemove mid], w.remove mid) := rfl

/-- Claim C8: on a `NackMessage` exit, `__aexit__` consults `is_max` and
performs REJECT when it is true and NACK otherwise, suppresses the signal
either way (returns truthy), and on the NACK path makes no `policy.remove`
call — the watcher state is exactly the post-`is_max` state. -/
theorem watcherContext_nack_signal (args : Args) (w : Watcher) (mid : String) :
    WatcherContext.aexit args w mid ExcInfo.nackMessage =
      if (w.is_max mid).1 then
        (true, [Event.policyIsMax mid, Event.msgReject args, Event.policyRemove mid],
          ((w.is_max mid).2).remove mid)
      else
        (true, [Event.policyIsMax mid, Event.msgNack args], (w.is_max mid).2) := by
  cases hq : (w.is_max mid).1 <;>
    simp [WatcherContext.aexit, WatcherContext.reject_action, WatcherContext.nack_action, hq]

/-- Claim C5 counterexample: on the `SkipMessage` exit path the scope
performs ZERO message-level terminal actions, so it is not the case that
every exit path performs exactly one. -/
theorem watcherContext_skip_zero_terminal_cex :
    terminal_events
      (WatcherContext.aexit [] (Watcher.counter (CounterWatcher.fresh 3)) "m"
          ExcInfo.skipMessage).2.1 = [] := rfl

/-- Claim C5 as amended: every `__aexit__` path — normal return, the Ack /
Nack / Reject signals, and an arbitrary unhandled exception — performs
exactly one message-level terminal action, EXCEPT the Skip-signal path,
which performs none. -/
theorem watcherContext_terminal_action_count (args : Args) (w : Watcher) (mid : String)
    (exc : ExcInfo) :
    (terminal_events (WatcherContext.aexit args w mid exc).2.1).length =
      if exc = ExcInfo.skipMessage then 0 else 1 := by
  cases exc with
  | noExc =>
      simp [WatcherContext.aexit, WatcherContext.ack_action, terminal_events, Event.is_terminal]
  | skipMessage =>
      simp [WatcherContext.aexit, terminal_events, Event.is_terminal]
  | ackMessage =>
      simp [WatcherContext.aexit, WatcherContext.ack_action, terminal_events, Event.is_terminal]
  | rejectMessage =>
      simp [WatcherContext.aexit, WatcherContext.reject_action, terminal_events, Event.is_terminal]
  | nackMessage =>
      cases hq : (w.is_max mid).1 <;>
        simp [WatcherContext.aexit, WatcherContext.nack_action, WatcherContext.reject_action,
          terminal_events, Event.is_terminal, hq]
  | otherException =>
      cases hq : (w.is_max mid).1 <;>
        simp [WatcherContext.aexit, WatcherContext.nack_action, WatcherContext.reject_action,
          terminal_events, Event.is_terminal, hq]

/-- Claim C6: with a `CounterWatcher` of `max_tries = 2`, entering the
scope three times for the same id with the handler raising a plain
exception each time, the first two exits NACK, the third exit REJECTs, and
the exception propagates (is not suppressed) at all three exits. -/
theorem watcherContext_three_failures_scenario :
    (let r1 := WatcherContext.scope_run [] (Watcher.counter (CounterWatcher.fresh 2)) "m"
        ExcInfo.otherException
     let r2 := WatcherContext.scope_run [] r1.2.2 "m" ExcInfo.otherException
     let r3 := WatcherContext.scope_run [] r2.2.2 "m" ExcInfo.otherException
     r1.1 = false ∧ r2.1 = false ∧ r3.1 = false ∧
       terminal_events r1.2.1 = [Event.msgNack []] ∧
       terminal_events r2.2.1 = [Event.msgNack []] ∧
       terminal_events r3.2.1 = [Event.msgReject []]) := by
  decide

end Faststream
